import Mathlib

/-!
Shallow embedding of the LLM provider-selection and CLI execution adapter
(`adws/agent.py`, `adws/llm_provider.py`, `app/server/core/llm_processor.py`).

JSON values produced by `json.loads` are modelled by the inductive `Json`;
the external `json.loads`/`json.dump` boundary is assumed faithful, so a
line of an output file is modelled as already parsed: blank, malformed
(raw text that `json.loads` rejects), or a parsed JSON object (`Obj`).
Python string truthiness on optional environment values is `pyStrTruthy`;
Python `dict.get` returning the `None` object both for an absent key and
for a JSON `null` value is captured by `jsonOptVal`.
-/

namespace Adws

/-- JSON values, the result of `json.loads` on one line. -/
inductive Json where
  | null
  | bool (b : Bool)
  | num (n : Int)
  | str (s : String)
  | arr (elems : List Json)
  | obj (fields : List (String × Json))

/-- A parsed JSON object: association list of fields, as produced by
`json.loads` on a JSON object literal (keys unique). -/
abbrev Obj := List (String × Json)

/-- `o.get(k)` on a Python dict: the value at key `k`, or `None` when absent. -/
def getField (o : Obj) (k : String) : Option Json :=
  (o.find? (fun p => p.1 == k)).map (fun p => p.2)

/-- Python truthiness of a JSON value (`not`, `if` on the decoded object). -/
def jsonTruthy : Json → Bool
  | .null => false
  | .bool b => b
  | .num n => n != 0
  | .str s => !s.isEmpty
  | .arr elems => !elems.isEmpty
  | .obj fields => !fields.isEmpty

/-- Python `dict.get` returns the `None` object both when the key is absent
and when the stored value is JSON `null`; the two are indistinguishable to
the caller, so both map to `none`. -/
def jsonOptVal : Option Json → Option Json
  | some .null => none
  | x => x

/-- One line of a JSONL output file, as seen after the `json.loads` boundary:
blank (only whitespace), malformed (non-blank, `json.loads` raises), or a
parsed record object. -/
inductive Line where
  | blank
  | malformed (raw : String)
  | record (fields : Obj)

/-- Whether `json.loads` would raise on this line. -/
def lineIsMalformed : Line → Bool
  | .malformed _ => true
  | _ => false

/-- The record carried by a line, skipping blank lines (`if line.strip()`). -/
def lineRecord : Line → Option Obj
  | .record o => some o
  | _ => none

/-- `message.get("type") == "result"` (agent.py line 70): true exactly when
the `type` field is present and is the string `"result"`. -/
def isResultMessage (o : Obj) : Bool :=
  match getField o "type" with
  | some (.str s) => s == "result"
  | _ => false

/-- `parse_jsonl_output` (agent.py lines 56-77).  The whole body — the list
comprehension `[json.loads(line) for line in f if line.strip()]` and the
reversed scan for the result message — sits inside a single `try`; any
`json.loads` failure on a non-blank line propagates to the `except`, which
logs and returns `([], None)`.  Blank lines are filtered out before
parsing; the result message is the last record whose `type` is `"result"`. -/
def parse_jsonl_output (lines : List Line) : List Obj × Option Obj :=
  if lines.any lineIsMalformed then ([], none)
  else
    let messages := lines.filterMap lineRecord
    (messages, messages.reverse.find? isResultMessage)

/-- Python `str.replace('.jsonl', '.json')` (agent.py line 90): every
occurrence of the substring `.jsonl` is replaced, left to right,
non-overlapping — not only a trailing extension. -/
def replaceJsonl : List Char → List Char
  | '.' :: 'j' :: 's' :: 'o' :: 'n' :: 'l' :: rest =>
      '.' :: 'j' :: 's' :: 'o' :: 'n' :: replaceJsonl rest
  | c :: rest => c :: replaceJsonl rest
  | [] => []

/-- `convert_jsonl_to_json` (agent.py lines 80-100): the path of the created
JSON file and the record array written to it (`messages` from
`parse_jsonl_output`, dumped by `json.dump` in the same order). -/
def convert_jsonl_to_json (jsonl_file : String) (lines : List Line) :
    String × List Obj :=
  (String.mk (replaceJsonl jsonl_file.data), (parse_jsonl_output lines).1)

/-- `AgentPromptResponse` (imported from the repository's `data_types`
module, not under src/).  Modelled from the spec: "PromptResponse: output
text, success flag, optional session identifier"; `output` keeps the raw
JSON value the code stores there. -/
structure AgentPromptResponse where
  output : Json
  success : Bool
  session_id : Option Json

/-- `AgentPromptRequest` (imported from the repository's `data_types`
module, not under src/).  Modelled from the spec: "PromptRequest: prompt
text, target model identifier, execution mode flags, output destination,
correlation id, agent/session label" plus the `provider` field the router
reads. -/
structure AgentPromptRequest where
  prompt : String
  adw_id : String
  agent_name : String
  model : String
  provider : String
  dangerously_skip_permissions : Bool
  output_file : String

/-- The environment-derived configuration read by `llm_provider.py` and
`llm_processor.py`: raw `os.getenv` results (`none` = variable absent). -/
structure Config where
  anthropic_enabled_var : Option String
  openai_enabled_var : Option String
  anthropic_api_key : Option String
  openai_api_key : Option String
  claude_code_path : Option String

/-- The ASCII fragment of Python `str.lower()`, character by character. -/
def pyLower (s : String) : String :=
  String.mk (s.data.map Char.toLower)

/-- Python truthiness of an `os.getenv` result: `None` and `""` are falsy. -/
def pyStrTruthy : Option String → Bool
  | some s => !s.isEmpty
  | none => false

/-- `is_anthropic_enabled` (llm_provider.py lines 21-23):
`os.getenv("ANTHROPIC_ENABLED", "true").lower() == "true"`. -/
def is_anthropic_enabled (c : Config) : Bool :=
  pyLower (c.anthropic_enabled_var.getD "true") == "true"

/-- `is_openai_enabled` (llm_provider.py lines 26-28):
`os.getenv("OPENAI_ENABLED", "false").lower() == "true"`. -/
def is_openai_enabled (c : Config) : Bool :=
  pyLower (c.openai_enabled_var.getD "false") == "true"

/-- The two providers of `LLMProvider` in llm_provider.py. -/
inductive Provider where
  | anthropic
  | openai
deriving DecidableEq, Repr

/-- `get_active_provider` (llm_provider.py lines 41-57): Anthropic first if
enabled with a truthy key, then OpenAI, else `None`. -/
def get_active_provider (c : Config) : Option Provider :=
  if is_anthropic_enabled c && pyStrTruthy c.anthropic_api_key then
    some .anthropic
  else if is_openai_enabled c && pyStrTruthy c.openai_api_key then
    some .openai
  else
    none

/-- `get_openai_model_for_claude_model` (llm_provider.py lines 60-82):
fixed lookup table, default `"gpt-4o"`. -/
def get_openai_model_for_claude_model (claude_model : String) : String :=
  if claude_model == "sonnet" then "gpt-4o"
  else if claude_model == "opus" then "gpt-4o"
  else if claude_model == "haiku" then "gpt-4o-mini"
  else if claude_model == "claude-3-5-sonnet-20241022" then "gpt-4o"
  else if claude_model == "claude-3-5-haiku-20241022" then "gpt-4o-mini"
  else if claude_model == "claude-3-opus-20240229" then "gpt-4o"
  else if claude_model == "claude-sonnet-4-20250514" then "gpt-4o"
  else if claude_model == "claude-opus-4-5-20251101" then "gpt-4o"
  else "gpt-4o"

/-- `CLAUDE_PATH = os.getenv("CLAUDE_CODE_PATH", "claude")` (agent.py line 32). -/
def CLAUDE_PATH (c : Config) : String :=
  c.claude_code_path.getD "claude"

/-- Whether the `claude --version` probe in `check_claude_installed`
succeeds.  `notFound` covers both `FileNotFoundError` and a non-zero exit
of the probe — the code returns the identical message for both. -/
inductive InstallState where
  | installed
  | notFound
deriving DecidableEq, Repr

/-- `check_claude_installed` (agent.py lines 35-53): skipped entirely
(returns `None`) when Anthropic is disabled; otherwise `None` when the
probe succeeds and an error message when it does not. -/
def check_claude_installed (c : Config) (st : InstallState) : Option String :=
  if !is_anthropic_enabled c then none
  else
    match st with
    | .installed => none
    | .notFound =>
        some ("Error: Claude Code CLI is not installed. Expected at: "
          ++ CLAUDE_PATH c)

/-- What `prompt_claude_code` decides to do after its routing prologue
(agent.py lines 242-263): run the Claude CLI subprocess, run the OpenAI
path, or return a response immediately. -/
inductive RouteAction where
  | runCLI
  | openaiExec
  | reply (resp : AgentPromptResponse)

/-- The routing prologue of `prompt_claude_code` (agent.py lines 242-263):
an explicit `"anthropic"` request falls back to OpenAI only when the
active provider is OpenAI; an explicit `"openai"` request always goes to
the OpenAI path; otherwise the Claude-installed check runs, its failure
falls back to OpenAI when OpenAI is active, else returns a failure
response carrying the installation error message. -/
def prompt_claude_code_route (c : Config) (st : InstallState)
    (provider : String) : RouteAction :=
  if provider == "anthropic" && decide (get_active_provider c = some .openai)
  then .openaiExec
  else if provider == "openai" then .openaiExec
  else
    match check_claude_installed c st with
    | some msg =>
        if get_active_provider c = some .openai then .openaiExec
        else .reply ⟨.str msg, false, none⟩
    | none => .runCLI

/-- A process environment: variable name to value, `none` = absent. -/
abbrev Env := String → Option String

/-- `env[k] = v` for a `dict` modelled as a function: update key `k` when
the overlay value is not `None`, keep the inherited entry otherwise
(`if v is not None: env[k] = v`, agent.py lines 144-147). -/
def setVarOpt (e : Env) (k : String) (v : Option String) : Env :=
  fun q => if q = k then v.orElse (fun _ => e q) else e q

/-- The first seven `config_vars` entries of `get_claude_env` (agent.py
lines 119-136) merged into the inherited environment in insertion order,
skipping `None` values. -/
def apply_config_vars (e : Env) : Env :=
  setVarOpt (setVarOpt (setVarOpt (setVarOpt (setVarOpt (setVarOpt
    (setVarOpt e
      "ANTHROPIC_API_KEY" (e "ANTHROPIC_API_KEY"))
      "OPENAI_API_KEY" (e "OPENAI_API_KEY"))
      "ANTHROPIC_ENABLED" (some ((e "ANTHROPIC_ENABLED").getD "true")))
      "OPENAI_ENABLED" (some ((e "OPENAI_ENABLED").getD "false")))
      "CLAUDE_CODE_PATH" (some ((e "CLAUDE_CODE_PATH").getD "claude")))
      "CLAUDE_BASH_MAINTAIN_PROJECT_WORKING_DIR"
        (some ((e "CLAUDE_BASH_MAINTAIN_PROJECT_WORKING_DIR").getD "true")))
    "E2B_API_KEY" (e "E2B_API_KEY")

/-- `get_claude_env` (agent.py lines 103-149): copy of the parent
environment, the `config_vars` overlay applied in insertion order with
`None` values skipped, and the two GitHub entries added only when
`GITHUB_PAT` is truthy (non-`None` and non-empty). -/
def get_claude_env (e : Env) : Env :=
  match e "GITHUB_PAT" with
  | some pat =>
      if !pat.isEmpty then
        setVarOpt (setVarOpt (apply_config_vars e) "GITHUB_PAT" (some pat))
          "GH_TOKEN" (some pat)
      else apply_config_vars e
  | none => apply_config_vars e

/-- The keys the `config_vars` overlay of `get_claude_env` may touch. -/
def overlayKeys : List String :=
  ["ANTHROPIC_API_KEY", "OPENAI_API_KEY", "ANTHROPIC_ENABLED",
   "OPENAI_ENABLED", "CLAUDE_CODE_PATH",
   "CLAUDE_BASH_MAINTAIN_PROJECT_WORKING_DIR", "E2B_API_KEY",
   "GITHUB_PAT", "GH_TOKEN"]

/-- A word character of the regex `\w` in `^(/\w+)` (save_prompt, agent.py
line 155), modelled over its ASCII fragment: letters, digits, underscore. -/
def isWordChar (c : Char) : Bool :=
  c.isAlphanum || c = '_'

/-- The `re.match(r'^(/\w+)', prompt)` capture with its leading slash
stripped (`slash_command[1:]`, agent.py lines 155-161): the maximal
non-empty run of word characters immediately after a leading `/`; `none`
when the prompt does not start with `/` followed by a word character. -/
def extract_slash_command (prompt : String) : Option String :=
  match prompt.data with
  | [] => none
  | c :: rest =>
      if c = '/' then
        let w := rest.takeWhile isWordChar
        if w.isEmpty then none else some (String.mk w)
      else none

/-- The one file write `save_prompt` may perform: its path and content. -/
structure AuditWrite where
  path : String
  content : String
deriving DecidableEq, Repr

/-- `save_prompt` (agent.py lines 152-173): no write when the prompt does
not begin with a slash command; otherwise the raw prompt is written to
`<project_root>/agents/<adw_id>/<agent_name>/prompts/<command>.txt`. -/
def save_prompt (project_root : String) (prompt : String) (adw_id : String)
    (agent_name : String) : Option AuditWrite :=
  match extract_slash_command prompt with
  | none => none
  | some command_name =>
      some ⟨project_root ++ "/agents/" ++ adw_id ++ "/" ++ agent_name
              ++ "/prompts/" ++ command_name ++ ".txt",
            prompt⟩

/-- The dictionary returned by `prompt_openai` (llm_provider.py): success
flag, output (response text or error message), optional usage object. -/
structure OpenAIResult where
  success : Bool
  output : Json
  usage : Option Json

/-- Outcome of the one HTTP POST inside `prompt_openai`: a decoded JSON
response body (assumed to be an object, as the OpenAI API returns), an
`HTTPError` with status/reason/body, or a `URLError` with a reason. -/
inductive HttpOutcome where
  | response (body : Obj)
  | httpError (code : Nat) (reason : String) (body : String)
  | urlError (reason : String)

/-- The fields of a JSON object; `[]` for a non-object.  Used where the
code calls `.get` on a value the API contract makes an object
(`choices[0]` and its `message`); on a non-object Python would raise into
the enclosing generic `except`, a path this view abstracts away. -/
def jsonAsObj : Json → Obj
  | .obj fields => fields
  | _ => []

/-- `prompt_openai` (llm_provider.py lines 85-185).  A falsy
(`None`/empty) `OPENAI_API_KEY` short-circuits before any request.
Otherwise: HTTP 401 gives the fixed invalid-key message; other HTTP errors
and connection errors carry code/reason; a response whose `choices` is a
non-empty array yields success with `choices[0].message.content` (default
`""`) and the raw `usage` field; an empty or falsy `choices` yields the
"No response" failure.  A truthy non-array `choices` would raise inside
the `try` and land in the generic `except`; CPython's exception text is
abstracted as `"OpenAI API error: TypeError"`. -/
def prompt_openai (c : Config) (http : HttpOutcome) : OpenAIResult :=
  if !pyStrTruthy c.openai_api_key then
    ⟨false, .str "OPENAI_API_KEY not set", none⟩
  else
    match http with
    | .response body =>
        match (getField body "choices").getD (.arr []) with
        | .arr (c0 :: _) =>
            let message := (getField (jsonAsObj c0) "message").getD (.obj [])
            let content := (getField (jsonAsObj message) "content").getD (.str "")
            ⟨true, content, jsonOptVal (getField body "usage")⟩
        | .arr [] => ⟨false, .str "No response from OpenAI API", none⟩
        | j =>
            if jsonTruthy j then ⟨false, .str "OpenAI API error: TypeError", none⟩
            else ⟨false, .str "No response from OpenAI API", none⟩
    | .httpError code reason body =>
        if code = 401 then
          ⟨false, .str "OpenAI API key is invalid (401 Unauthorized)", none⟩
        else
          ⟨false, .str ("OpenAI API error: " ++ toString code ++ " " ++ reason
                          ++ " - " ++ body), none⟩
    | .urlError reason =>
        ⟨false, .str ("OpenAI API connection failed: " ++ reason), none⟩

/-- All effects of `execute_prompt_openai` (agent.py lines 176-232): the
optional audit write, the mapped model, the single-record JSONL output
file content, the sibling JSON-array file content, and the returned
response. -/
structure OpenAIExec where
  audit : Option AuditWrite
  openai_model : String
  output_file_records : List Obj
  json_file_records : List Obj
  response : AgentPromptResponse

/-- `execute_prompt_openai` (agent.py lines 176-232): saves the prompt,
maps the model, runs `prompt_openai`, writes exactly one `"result"` record
to the output file (and the same single record as a JSON array to the
`.jsonl`-replaced sibling), and returns output/success with no session id. -/
def execute_prompt_openai (c : Config) (http : HttpOutcome)
    (project_root : String) (r : AgentPromptRequest) : OpenAIExec :=
  let audit := save_prompt project_root r.prompt r.adw_id r.agent_name
  let openai_model := get_openai_model_for_claude_model r.model
  let result := prompt_openai c http
  let output_data : Obj :=
    [("type", .str "result"),
     ("subtype", .str (if result.success then "success" else "error")),
     ("is_error", .bool (!result.success)),
     ("result", result.output),
     ("session_id", .null),
     ("provider", .str "openai"),
     ("model", .str openai_model),
     ("usage", result.usage.getD .null)]
  ⟨audit, openai_model, [output_data], [output_data],
   ⟨result.output, result.success, none⟩⟩

/-- The `subprocess.run` invocation of `prompt_claude_code` (agent.py
lines 286-291): argument list, stdout redirection target, and the
`timeout` keyword argument — `none` meaning the keyword is not passed at
all, so the call blocks without limit. -/
structure SubprocessInvocation where
  cmd : List String
  stdout_file : String
  timeout_seconds : Option Nat
deriving DecidableEq, Repr

/-- The command list built at agent.py lines 273-281. -/
def build_claude_cmd (c : Config) (r : AgentPromptRequest) : List String :=
  [CLAUDE_PATH c, "-p", r.prompt, "--model", r.model,
   "--output-format", "stream-json", "--verbose"]
  ++ (if r.dangerously_skip_permissions
      then ["--dangerously-skip-permissions"] else [])

/-- The subprocess invocation `prompt_claude_code` performs on the CLI
path: `subprocess.run(cmd, stdout=f, stderr=subprocess.PIPE, text=True,
env=env)` — no `timeout` argument appears in the call. -/
def claude_subprocess_invocation (c : Config) (r : AgentPromptRequest) :
    SubprocessInvocation :=
  ⟨build_claude_cmd c r, r.output_file, none⟩

/-- The response built by the `except subprocess.TimeoutExpired` handler
(agent.py lines 329-332). -/
def timeout_handler_response : AgentPromptResponse :=
  ⟨.str "Error: Claude Code command timed out after 5 minutes", false, none⟩

/-- The post-subprocess part of `prompt_claude_code` (agent.py lines
293-327): on exit 0, parse the output file; with a result message, success
is the negated truthiness of `is_error` (default `False`), output is the
`result` field (default `""`), session id is `get("session_id")`; with no
result message, the raw file content is the output with success `True`.
On non-zero exit, a failure carrying stderr. -/
def prompt_claude_code_postprocess (returncode : Int) (stderrText : String)
    (lines : List Line) (rawContent : String) : AgentPromptResponse :=
  if returncode = 0 then
    match (parse_jsonl_output lines).2 with
    | some rm =>
        ⟨(getField rm "result").getD (.str ""),
         !(jsonTruthy ((getField rm "is_error").getD (.bool false))),
         jsonOptVal (getField rm "session_id")⟩
    | none => ⟨.str rawContent, true, none⟩
  else
    ⟨.str ("Claude Code error: " ++ stderrText), false, none⟩

/-- `anthropic_enabled` as read inside `generate_sql` (llm_processor.py
line 150): default `"true"`. -/
def generate_sql_anthropic_enabled (c : Config) : Bool :=
  pyLower (c.anthropic_enabled_var.getD "true") == "true"

/-- `openai_enabled` as read inside `generate_sql` (llm_processor.py
line 151): default `"true"` — unlike `is_openai_enabled` in
llm_provider.py, whose default is `"false"`. -/
def generate_sql_openai_enabled (c : Config) : Bool :=
  pyLower (c.openai_enabled_var.getD "true") == "true"

/-- Which provider `generate_sql` (llm_processor.py lines 138-174)
dispatches to, or `errorRaised` for the final `raise ValueError`. -/
inductive SqlRoute where
  | anthropic
  | openai
  | errorRaised
deriving DecidableEq, Repr

/-- The routing of `generate_sql` (llm_processor.py lines 138-174). -/
def generate_sql (c : Config) (request_llm_provider : String) : SqlRoute :=
  if generate_sql_anthropic_enabled c && pyStrTruthy c.anthropic_api_key then
    .anthropic
  else if generate_sql_openai_enabled c && pyStrTruthy c.openai_api_key then
    .openai
  else if request_llm_provider == "openai" && pyStrTruthy c.openai_api_key then
    .openai
  else if request_llm_provider == "anthropic"
          && pyStrTruthy c.anthropic_api_key then
    .anthropic
  else
    .errorRaised

/-- Stated from the spec's words for comparison (C9): the first
whitespace-delimited token of the prompt, provided it begins with the `/`
marker, with the marker stripped. -/
def specFirstTokenCommand (prompt : String) : Option String :=
  match prompt.data.takeWhile (fun c => !c.isWhitespace) with
  | '/' :: tokenRest => some (String.mk tokenRest)
  | _ => none

/-- Stated from the spec's words for comparison (C7): the sibling path
with the trailing `.jsonl` extension — and only it — replaced by `.json`. -/
def specSiblingJsonPath (name : String) : String :=
  if name.data.reverse.take 6 = ['.', 'j', 's', 'o', 'n', 'l'].reverse then
    String.mk (name.data.take (name.data.length - 6)) ++ ".json"
  else name

/-! Concrete records used by witnesses and counterexamples. -/

/-- A non-terminal record. -/
def progressRec : Obj := [("type", Json.str "progress")]

/-- A first terminal record: success, result `R1`, session `S1`. -/
def resultRec1 : Obj :=
  [("type", Json.str "result"), ("is_error", Json.bool false),
   ("result", Json.str "R1"), ("session_id", Json.str "S1")]

/-- A second terminal record: error, result `R2`, no session. -/
def resultRec2 : Obj :=
  [("type", Json.str "result"), ("is_error", Json.bool true),
   ("result", Json.str "R2")]

/-! Helper lemmas. -/

theorem any_malformed_map_record (rs : List Obj) :
    (rs.map Line.record).any lineIsMalformed = false := by
  induction rs with
  | nil => rfl
  | cons a t ih => simp [lineIsMalformed, ih]

theorem filterMap_lineRecord_map_record (rs : List Obj) :
    (rs.map Line.record).filterMap lineRecord = rs := by
  induction rs with
  | nil => rfl
  | cons a t ih => simp [lineRecord, ih]

/-- A file whose lines are all valid records parses to exactly those
records, with the result message found by the scan from the end. -/
theorem parse_map_record (L : List Obj) :
    parse_jsonl_output (L.map Line.record)
      = (L, L.reverse.find? isResultMessage) := by
  unfold parse_jsonl_output
  rw [any_malformed_map_record L, filterMap_lineRecord_map_record L]
  simp

theorem takeWhile_append_of (p : Char → Bool) (w rest : List Char)
    (h1 : ∀ c ∈ w, p c = true)
    (h2 : rest = [] ∨ p (rest.headD 'a') = false) :
    (w ++ rest).takeWhile p = w := by
  induction w with
  | nil =>
      cases rest with
      | nil => rfl
      | cons r t =>
          rcases h2 with h2 | h2
          · exact absurd h2 (by simp)
          · simp only [List.headD_cons] at h2
            simp [List.takeWhile_cons, h2]
  | cons a t ih =>
      have ha : p a = true := h1 a (by simp)
      simp [List.takeWhile_cons, ha, ih (fun c hc => h1 c (by simp [hc]))]

/-- C1 — corrected.  The claim says a malformed line is skipped and the
valid records around it are still returned; in the code the single `try`
around the whole list comprehension makes one unparsable line discard
every record: the call returns `([], none)`.  Here: a file with a valid
record before and after a blank line and a malformed line yields an empty
message list, not the two valid records. -/
theorem C1_counterexample :
    parse_jsonl_output
      [Line.record progressRec, Line.blank, Line.malformed "not json",
       Line.record resultRec1] = ([], none)
    ∧ ([] : List Obj) ≠ [progressRec, resultRec1] := by
  exact ⟨rfl, by simp⟩

/-- C1 — amended: blank lines interspersed among records are skipped (the
parse of a file with a blank line inserted anywhere equals the parse
without it) and a file whose lines all parse returns every record in
order; but any malformed line makes the whole parse return `([], none)` —
the call still returns normally rather than raising, yet the valid
records are lost. -/
theorem C1_blank_skipped_malformed_discards_all
    (xs ys : List Line) (s : String) (rs : List Obj) :
    parse_jsonl_output (xs ++ Line.blank :: ys) = parse_jsonl_output (xs ++ ys)
    ∧ parse_jsonl_output (xs ++ Line.malformed s :: ys) = ([], none)
    ∧ (parse_jsonl_output (rs.map Line.record)).1 = rs := by
  refine ⟨?_, ?_, ?_⟩
  · simp [parse_jsonl_output, List.any_append, List.any_cons,
      List.filterMap_append, List.filterMap_cons, lineIsMalformed, lineRecord]
  · simp [parse_jsonl_output, List.any_append, List.any_cons, lineIsMalformed]
  · rw [parse_map_record]

/-- C5 — confirmed.  When the parsed record sequence holds more than one
record of type `"result"` (one in `xs`, the final one `r`, none later),
`parse_jsonl_output` selects `r`, the last in stream order, and the
response of `prompt_claude_code` takes its success flag (negated
truthiness of `is_error`), output (`result` field) and session id from
`r`. -/
theorem C5_last_result_record_wins (xs ys : List Obj) (r : Obj)
    (serr raw : String)
    (hr : isResultMessage r = true)
    (hys : ∀ y ∈ ys, isResultMessage y = false)
    (hmulti : ∃ x ∈ xs, isResultMessage x = true) :
    parse_jsonl_output ((xs ++ r :: ys).map Line.record) = (xs ++ r :: ys, some r)
    ∧ prompt_claude_code_postprocess 0 serr ((xs ++ r :: ys).map Line.record) raw
        = ⟨(getField r "result").getD (.str ""),
           !(jsonTruthy ((getField r "is_error").getD (.bool false))),
           jsonOptVal (getField r "session_id")⟩ := by
  have hfind : (xs ++ r :: ys).reverse.find? isResultMessage = some r := by
    have h1 : ys.reverse.find? isResultMessage = none := by
      rw [List.find?_eq_none]
      intro x hx
      rw [List.mem_reverse] at hx
      simp [hys x hx]
    rw [List.reverse_append, List.reverse_cons, List.find?_append,
      List.find?_append, h1, List.find?_cons_of_pos _ hr]
    rfl
  have hparse : parse_jsonl_output ((xs ++ r :: ys).map Line.record)
      = (xs ++ r :: ys, some r) := by
    rw [parse_map_record, hfind]
  refine ⟨hparse, ?_⟩
  have h2 : (parse_jsonl_output ((xs ++ r :: ys).map Line.record)).2 = some r := by
    rw [hparse]
  simp only [prompt_claude_code_postprocess, if_pos rfl]
  rw [h2]
  simp

/-- C5 witness: the spec's own three-record example — a progress record,
a success result `R1`, then an error result `R2`; the parse selects `R2`
and the response carries `R2` with success `false`. -/
theorem C5_witness :
    isResultMessage resultRec2 = true
    ∧ (∃ x ∈ [progressRec, resultRec1], isResultMessage x = true)
    ∧ prompt_claude_code_postprocess 0 ""
        (([progressRec, resultRec1] ++ resultRec2 :: []).map Line.record) "raw"
        = ⟨.str "R2", false, none⟩ := by
  refine ⟨by decide, by decide, ?_⟩
  exact (C5_last_result_record_wins [progressRec, resultRec1] [] resultRec2
    "" "raw" (by decide) (by simp) (by decide)).2

/-- C6 — confirmed.  On exit status 0, when the parsed output has no
record of type `"result"`, `prompt_claude_code` returns the raw output
file content with success `true` and no session id. -/
theorem C6_no_result_raw_fallback (lines : List Line) (serr raw : String)
    (h : (parse_jsonl_output lines).2 = none) :
    prompt_claude_code_postprocess 0 serr lines raw = ⟨.str raw, true, none⟩ := by
  simp [prompt_claude_code_postprocess, h]

/-- C6 witness: a file holding only a progress record has no result
record, and the response is the raw content with success `true`. -/
theorem C6_witness :
    (parse_jsonl_output [Line.record progressRec]).2 = none
    ∧ prompt_claude_code_postprocess 0 "e" [Line.record progressRec] "RAW"
        = ⟨.str "RAW", true, none⟩ := by
  exact ⟨rfl, C6_no_result_raw_fallback [Line.record progressRec] "e" "RAW" rfl⟩

theorem replaceJsonl_cons_ne_dot (c : Char) (l : List Char) (hc : c ≠ '.') :
    replaceJsonl (c :: l) = c :: replaceJsonl l := by
  conv_lhs => unfold replaceJsonl
  split
  next h => injection h with h1 _; exact absurd h1 hc
  next h => injection h with h1 h2; subst h1; subst h2; rfl
  next h => simp at h

theorem replaceJsonl_no_dot_append (base : List Char) (hbase : '.' ∉ base) :
    replaceJsonl (base ++ ".jsonl".data) = base ++ ".json".data := by
  induction base with
  | nil => rfl
  | cons c t ih =>
      have hc : c ≠ '.' := fun h => hbase (by simp [h])
      rw [List.cons_append, replaceJsonl_cons_ne_dot c _ hc,
        ih (fun h => hbase (by simp [h]))]
      rfl

/-- C7 — corrected.  The round-trip holds: for a file of valid records the
JSONL parse and the JSON-array file hold the identical ordered record
sequence.  But the sibling path is computed by
`jsonl_file.replace('.jsonl', '.json')`, which replaces every occurrence
of the substring `.jsonl`, not the extension: on `"a.jsonl.b.jsonl"` the
code produces `"a.json.b.json"` while extension replacement gives
`"a.jsonl.b.json"`. -/
theorem C7_counterexample :
    (convert_jsonl_to_json "a.jsonl.b.jsonl" []).1 = "a.json.b.json"
    ∧ specSiblingJsonPath "a.jsonl.b.jsonl" = "a.jsonl.b.json"
    ∧ ("a.json.b.json" : String) ≠ "a.jsonl.b.json" := by
  exact ⟨rfl, by decide, by decide⟩

/-- C7 — amended: for every JSONL file of valid records,
`convert_jsonl_to_json` writes the same records as a JSON array in the
same order (so parsing the JSONL file and the array file yield identical
ordered sequences), at the path obtained by replacing every occurrence of
the substring `.jsonl` with `.json` — which is exactly the extension
replacement whenever the base name contains no further dot. -/
theorem C7_roundtrip_and_sibling_path (rs : List Obj) (base : List Char)
    (hbase : '.' ∉ base) :
    (parse_jsonl_output (rs.map Line.record)).1 = rs
    ∧ convert_jsonl_to_json (String.mk (base ++ ".jsonl".data))
        (rs.map Line.record)
        = (String.mk (base ++ ".json".data), rs) := by
  constructor
  · rw [parse_map_record]
  · unfold convert_jsonl_to_json
    rw [parse_map_record]
    show (String.mk (replaceJsonl (base ++ ".jsonl".data)), rs) = _
    rw [replaceJsonl_no_dot_append base hbase]

/-- C7 witness: the `raw_output.jsonl` file name used by
`execute_template`, with one valid record. -/
theorem C7_witness :
    ('.' ∉ "raw_output".data)
    ∧ convert_jsonl_to_json
        (String.mk ("raw_output".data ++ ".jsonl".data))
        ([progressRec].map Line.record)
        = (String.mk ("raw_output".data ++ ".json".data), [progressRec]) := by
  exact ⟨by decide,
    (C7_roundtrip_and_sibling_path [progressRec] "raw_output".data (by decide)).2⟩

/-- C9 — corrected.  The audit command name is not the full first
whitespace-delimited token: the regex `^(/\w+)` captures only the maximal
run of word characters after the slash.  On the prompt `"/a-b c"` the
code writes `.../prompts/a.txt` while the first whitespace-delimited
token with the marker stripped is `"a-b"`. -/
theorem C9_counterexample :
    save_prompt "R" "/a-b c" "id" "ag"
      = some ⟨"R/agents/id/ag/prompts/a.txt", "/a-b c"⟩
    ∧ specFirstTokenCommand "/a-b c" = some "a-b"
    ∧ ("a" : String) ≠ "a-b" := by
  exact ⟨by decide, by decide, by decide⟩

/-- C9 — amended: for a prompt of the form `/` followed by a non-empty
run `w` of word characters (letters, digits, underscore) and then a
non-word character (or nothing), `save_prompt` writes the raw prompt text
to `<root>/agents/<adw_id>/<agent_name>/prompts/<w>.txt`; for every
prompt that does not start with the `/` marker, no audit file is written
and no error is raised. -/
theorem C9_audit_path_word_prefix (root adw agent : String)
    (w rest : List Char)
    (hw : w ≠ [])
    (hall : ∀ c ∈ w, isWordChar c = true)
    (hrest : rest = [] ∨ isWordChar (rest.headD 'a') = false) :
    save_prompt root (String.mk ('/' :: (w ++ rest))) adw agent
      = some ⟨root ++ "/agents/" ++ adw ++ "/" ++ agent ++ "/prompts/"
                ++ String.mk w ++ ".txt",
              String.mk ('/' :: (w ++ rest))⟩
    ∧ ∀ (l : List Char), l.head? ≠ some '/' →
        save_prompt root (String.mk l) adw agent = none := by
  constructor
  · have hex : extract_slash_command (String.mk ('/' :: (w ++ rest)))
        = some (String.mk w) := by
      show (if '/' = '/' then
              let tw := (w ++ rest).takeWhile isWordChar
              if tw.isEmpty then none else some (String.mk tw)
            else none) = some (String.mk w)
      rw [if_pos rfl, takeWhile_append_of isWordChar w rest hall hrest]
      cases w with
      | nil => exact absurd rfl hw
      | cons a t => rfl
    unfold save_prompt
    rw [hex]
  · intro l hl
    cases l with
    | nil => rfl
    | cons c t =>
        have hc : c ≠ '/' := by
          intro h
          exact hl (by simp [h])
        have hex : extract_slash_command (String.mk (c :: t)) = none := by
          show (if c = '/' then
                  let tw := t.takeWhile isWordChar
                  if tw.isEmpty then none else some (String.mk tw)
                else none) = none
          rw [if_neg hc]
        unfold save_prompt
        rw [hex]

/-- C9 witness: the prompt `/chore x` is written to `.../prompts/chore.txt`
with the raw prompt as content; a prompt not starting with `/` writes
nothing. -/
theorem C9_witness :
    save_prompt "R" (String.mk ('/' :: (['c', 'h', 'o', 'r', 'e'] ++ [' ', 'x'])))
        "id" "ag"
      = some ⟨"R" ++ "/agents/" ++ "id" ++ "/" ++ "ag" ++ "/prompts/"
                ++ String.mk ['c', 'h', 'o', 'r', 'e'] ++ ".txt",
              String.mk ('/' :: (['c', 'h', 'o', 'r', 'e'] ++ [' ', 'x']))⟩
    ∧ save_prompt "R" (String.mk ['h', 'i']) "id" "ag" = none := by
  have h := C9_audit_path_word_prefix "R" "id" "ag"
    ['c', 'h', 'o', 'r', 'e'] [' ', 'x'] (by decide) (by decide) (by decide)
  exact ⟨h.1, h.2 ['h', 'i'] (by decide)⟩

/-- C2 — corrected.  With `OPENAI_ENABLED` absent from the environment,
the provider-selection module reads the flag as disabled while the
SQL-generation router reads it as enabled: the two components do not use
the same default for the secondary provider. -/
theorem C2_counterexample :
    is_openai_enabled (Config.mk none none none none none) = false
    ∧ generate_sql_openai_enabled (Config.mk none none none none none) = true := by
  exact ⟨by decide, by decide⟩

/-- C2 — amended: with both enablement variables absent, the
provider-selection module defaults `ANTHROPIC_ENABLED` to true and
`OPENAI_ENABLED` to false, but the SQL-generation router `generate_sql`
defaults both to true — its `OPENAI_ENABLED` default differs from the
provider-selection module's. -/
theorem C2_defaults_diverge (c : Config)
    (ha : c.anthropic_enabled_var = none)
    (ho : c.openai_enabled_var = none) :
    is_anthropic_enabled c = true
    ∧ is_openai_enabled c = false
    ∧ generate_sql_anthropic_enabled c = true
    ∧ generate_sql_openai_enabled c = true := by
  refine ⟨?_, ?_, ?_, ?_⟩
  · simp only [is_anthropic_enabled, ha]; decide
  · simp only [is_openai_enabled, ho]; decide
  · simp only [generate_sql_anthropic_enabled, ha]; decide
  · simp only [generate_sql_openai_enabled, ho]; decide

/-- C2 witness: the all-absent environment. -/
theorem C2_witness :
    (Config.mk none none none none none).openai_enabled_var = none
    ∧ is_openai_enabled (Config.mk none none none none none) = false
    ∧ generate_sql_openai_enabled (Config.mk none none none none none) = true := by
  exact ⟨rfl, (C2_defaults_diverge _ rfl rfl).2.1,
    (C2_defaults_diverge _ rfl rfl).2.2.2⟩

/-- C3 — corrected.  With `ANTHROPIC_ENABLED=false` and no key in the
environment, no provider is active — yet `prompt_claude_code` on an
`"anthropic"` request skips the CLI-installed check entirely (it is gated
on the flag) and proceeds to invoke the Claude CLI subprocess, even when
the CLI is not installed, instead of returning a configuration-error
failure. -/
theorem C3_counterexample :
    get_active_provider (Config.mk (some "false") none none none none) = none
    ∧ prompt_claude_code_route (Config.mk (some "false") none none none none)
        .notFound "anthropic" = .runCLI := by
  exact ⟨rfl, rfl⟩

/-- C3 — amended: whenever neither provider is enabled-and-keyed,
`get_active_provider` returns none; but `prompt_claude_code` never
returns a configuration-error response: when `ANTHROPIC_ENABLED` is false
it proceeds to run the CLI subprocess regardless of the install state,
and when `ANTHROPIC_ENABLED` is true it returns success=false with a
CLI-not-installed message if the probe fails, or proceeds to run the CLI
if the probe succeeds. -/
theorem C3_no_provider_routing (c : Config) (st : InstallState) (p : String)
    (hp : p ≠ "openai")
    (h1 : ¬(is_anthropic_enabled c = true
             ∧ pyStrTruthy c.anthropic_api_key = true))
    (h2 : ¬(is_openai_enabled c = true ∧ pyStrTruthy c.openai_api_key = true)) :
    get_active_provider c = none
    ∧ (is_anthropic_enabled c = false → prompt_claude_code_route c st p = .runCLI)
    ∧ (is_anthropic_enabled c = true →
        prompt_claude_code_route c .notFound p
          = .reply ⟨.str ("Error: Claude Code CLI is not installed. Expected at: "
                            ++ CLAUDE_PATH c), false, none⟩
        ∧ prompt_claude_code_route c .installed p = .runCLI) := by
  have ha : (is_anthropic_enabled c && pyStrTruthy c.anthropic_api_key) = false := by
    cases hA : is_anthropic_enabled c <;>
      cases hK : pyStrTruthy c.anthropic_api_key <;> simp_all
  have ho : (is_openai_enabled c && pyStrTruthy c.openai_api_key) = false := by
    cases hA : is_openai_enabled c <;>
      cases hK : pyStrTruthy c.openai_api_key <;> simp_all
  have hactive : get_active_provider c = none := by
    simp [get_active_provider, ha, ho]
  have hpb : (p == "openai") = false := by
    simp [hp]
  refine ⟨hactive, ?_, ?_⟩
  · intro hoff
    simp [prompt_claude_code_route, hactive, hpb, check_claude_installed, hoff]
  · intro hon
    constructor
    · simp [prompt_claude_code_route, hactive, hpb, check_claude_installed, hon]
    · simp [prompt_claude_code_route, hactive, hpb, check_claude_installed, hon]

/-- C3 witness: Anthropic enabled by default but no key set and the CLI
probe failing — the failure carries the CLI-not-installed message, not a
configuration error. -/
theorem C3_witness :
    (("anthropic" : String) ≠ "openai")
    ∧ prompt_claude_code_route (Config.mk none none none none none)
        .notFound "anthropic"
        = .reply ⟨.str ("Error: Claude Code CLI is not installed. Expected at: "
                          ++ CLAUDE_PATH (Config.mk none none none none none)),
                  false, none⟩ := by
  exact ⟨by decide,
    ((C3_no_provider_routing (Config.mk none none none none none) .notFound
      "anthropic" (by decide) (by decide) (by decide)).2.2 (by decide)).1⟩

/-- C4 — code bug.  The claim (and the spec, and the code's own
`except subprocess.TimeoutExpired` handler with its "timed out after 5
minutes" message) says a 5-minute timeout applies to the CLI subprocess;
but the `subprocess.run` call passes no `timeout` argument at all, so the
invocation blocks without limit and the timeout handler is unreachable.
For every request the invocation's timeout is `none`, while the dead
handler would have produced the specific timeout failure the claim
describes. -/
theorem C4_no_timeout_passed (c : Config) (r : AgentPromptRequest) :
    (claude_subprocess_invocation c r).timeout_seconds = none
    ∧ timeout_handler_response
        = ⟨.str "Error: Claude Code command timed out after 5 minutes",
           false, none⟩ := by
  exact ⟨rfl, rfl⟩

theorem setVarOpt_ne (e : Env) (k q : String) (v : Option String)
    (h : q ≠ k) : setVarOpt e k v q = e q := by
  simp [setVarOpt, h]

theorem setVarOpt_keep (e : Env) (k : String) :
    setVarOpt e k (e k) k = e k := by
  cases h : e k <;> simp [setVarOpt, h, Option.orElse]

theorem setVarOpt_put (e : Env) (k : String) (v : String) :
    setVarOpt e k (some v) k = some v := by
  simp [setVarOpt, Option.orElse]

theorem setVarOpt_pass (e e' : Env) (k : String) (h : e' k = e k) :
    setVarOpt e' k (e k) k = e k := by
  cases hv : e k with
  | none => simp [setVarOpt, Option.orElse, hv, h]
  | some s => simp [setVarOpt, Option.orElse, hv]

theorem apply_config_vars_ne (e : Env) (q : String)
    (n1 : q ≠ "ANTHROPIC_API_KEY") (n2 : q ≠ "OPENAI_API_KEY")
    (n3 : q ≠ "ANTHROPIC_ENABLED") (n4 : q ≠ "OPENAI_ENABLED")
    (n5 : q ≠ "CLAUDE_CODE_PATH")
    (n6 : q ≠ "CLAUDE_BASH_MAINTAIN_PROJECT_WORKING_DIR")
    (n7 : q ≠ "E2B_API_KEY") :
    apply_config_vars e q = e q := by
  unfold apply_config_vars
  rw [setVarOpt_ne _ _ _ _ n7, setVarOpt_ne _ _ _ _ n6,
    setVarOpt_ne _ _ _ _ n5, setVarOpt_ne _ _ _ _ n4,
    setVarOpt_ne _ _ _ _ n3, setVarOpt_ne _ _ _ _ n2,
    setVarOpt_ne _ _ _ _ n1]

theorem apply_config_vars_anthropic_key (e : Env) :
    apply_config_vars e "ANTHROPIC_API_KEY" = e "ANTHROPIC_API_KEY" := by
  unfold apply_config_vars
  rw [setVarOpt_ne _ _ _ _ (by decide), setVarOpt_ne _ _ _ _ (by decide),
    setVarOpt_ne _ _ _ _ (by decide), setVarOpt_ne _ _ _ _ (by decide),
    setVarOpt_ne _ _ _ _ (by decide), setVarOpt_ne _ _ _ _ (by decide)]
  exact setVarOpt_keep e "ANTHROPIC_API_KEY"

theorem apply_config_vars_openai_key (e : Env) :
    apply_config_vars e "OPENAI_API_KEY" = e "OPENAI_API_KEY" := by
  unfold apply_config_vars
  rw [setVarOpt_ne _ _ _ _ (by decide), setVarOpt_ne _ _ _ _ (by decide),
    setVarOpt_ne _ _ _ _ (by decide), setVarOpt_ne _ _ _ _ (by decide),
    setVarOpt_ne _ _ _ _ (by decide)]
  exact setVarOpt_pass e _ "OPENAI_API_KEY" (setVarOpt_ne _ _ _ _ (by decide))

theorem apply_config_vars_e2b (e : Env) :
    apply_config_vars e "E2B_API_KEY" = e "E2B_API_KEY" := by
  unfold apply_config_vars
  exact setVarOpt_pass e _ "E2B_API_KEY" (by
    rw [setVarOpt_ne _ _ _ _ (by decide), setVarOpt_ne _ _ _ _ (by decide),
      setVarOpt_ne _ _ _ _ (by decide), setVarOpt_ne _ _ _ _ (by decide),
      setVarOpt_ne _ _ _ _ (by decide), setVarOpt_ne _ _ _ _ (by decide)])

theorem apply_config_vars_anthropic_enabled (e : Env)
    (h : e "ANTHROPIC_ENABLED" = some "") :
    apply_config_vars e "ANTHROPIC_ENABLED" = some "" := by
  unfold apply_config_vars
  rw [setVarOpt_ne _ _ _ _ (by decide), setVarOpt_ne _ _ _ _ (by decide),
    setVarOpt_ne _ _ _ _ (by decide), setVarOpt_ne _ _ _ _ (by decide),
    setVarOpt_put, h]
  rfl

theorem apply_config_vars_openai_enabled (e : Env)
    (h : e "OPENAI_ENABLED" = some "") :
    apply_config_vars e "OPENAI_ENABLED" = some "" := by
  unfold apply_config_vars
  rw [setVarOpt_ne _ _ _ _ (by decide), setVarOpt_ne _ _ _ _ (by decide),
    setVarOpt_ne _ _ _ _ (by decide), setVarOpt_put, h]
  rfl

/-- Away from the two GitHub keys, `get_claude_env` agrees with the
seven-entry `config_vars` merge for every inherited environment. -/
theorem get_claude_env_eq_config_vars (e : Env) (q : String)
    (h8 : q ≠ "GITHUB_PAT") (h9 : q ≠ "GH_TOKEN") :
    get_claude_env e q = apply_config_vars e q := by
  unfold get_claude_env
  cases hg : e "GITHUB_PAT" with
  | none => rfl
  | some pat =>
      show (if (!pat.isEmpty) = true then
              setVarOpt (setVarOpt (apply_config_vars e) "GITHUB_PAT"
                (some pat)) "GH_TOKEN" (some pat)
            else apply_config_vars e) q = apply_config_vars e q
      cases hpe : pat.isEmpty with
      | true => rfl
      | false =>
          show setVarOpt (setVarOpt (apply_config_vars e) "GITHUB_PAT"
            (some pat)) "GH_TOKEN" (some pat) q = apply_config_vars e q
          rw [setVarOpt_ne _ _ _ _ h9, setVarOpt_ne _ _ _ _ h8]

/-- C8 — confirmed.  `get_claude_env` only touches the fixed overlay
keys: every other variable keeps its inherited value; the three
passthrough credential keys are never changed (their overlay value is
their own inherited value, skipped when `None`); an enablement key
inherited as the empty string is rewritten to the same empty string; and
when `GITHUB_PAT` is absent or empty the two GitHub keys keep their
inherited values. -/
theorem C8_env_overlay_frame (e : Env) (k : String) (hk : k ∉ overlayKeys) :
    get_claude_env e k = e k
    ∧ get_claude_env e "ANTHROPIC_API_KEY" = e "ANTHROPIC_API_KEY"
    ∧ get_claude_env e "OPENAI_API_KEY" = e "OPENAI_API_KEY"
    ∧ get_claude_env e "E2B_API_KEY" = e "E2B_API_KEY"
    ∧ (e "ANTHROPIC_ENABLED" = some "" →
        get_claude_env e "ANTHROPIC_ENABLED" = some "")
    ∧ (e "OPENAI_ENABLED" = some "" →
        get_claude_env e "OPENAI_ENABLED" = some "")
    ∧ ((e "GITHUB_PAT" = none ∨ e "GITHUB_PAT" = some "") →
        get_claude_env e "GITHUB_PAT" = e "GITHUB_PAT"
        ∧ get_claude_env e "GH_TOKEN" = e "GH_TOKEN") := by
  simp only [overlayKeys, List.mem_cons, List.not_mem_nil, or_false,
    not_or] at hk
  obtain ⟨k1, k2, k3, k4, k5, k6, k7, k8, k9⟩ := hk
  have hgit : (e "GITHUB_PAT" = none ∨ e "GITHUB_PAT" = some "") →
      ∀ (q : String), get_claude_env e q = apply_config_vars e q := by
    intro hg q
    unfold get_claude_env
    rcases hg with hg | hg <;> rw [hg]
    rfl
  refine ⟨?_, ?_, ?_, ?_, ?_, ?_, ?_⟩
  · rw [get_claude_env_eq_config_vars e k k8 k9]
    exact apply_config_vars_ne e k k1 k2 k3 k4 k5 k6 k7
  · rw [get_claude_env_eq_config_vars e _ (by decide) (by decide)]
    exact apply_config_vars_anthropic_key e
  · rw [get_claude_env_eq_config_vars e _ (by decide) (by decide)]
    exact apply_config_vars_openai_key e
  · rw [get_claude_env_eq_config_vars e _ (by decide) (by decide)]
    exact apply_config_vars_e2b e
  · intro hae
    rw [get_claude_env_eq_config_vars e _ (by decide) (by decide)]
    exact apply_config_vars_anthropic_enabled e hae
  · intro hoe
    rw [get_claude_env_eq_config_vars e _ (by decide) (by decide)]
    exact apply_config_vars_openai_enabled e hoe
  · intro hg
    constructor
    · rw [hgit hg "GITHUB_PAT"]
      exact apply_config_vars_ne e _ (by decide) (by decide) (by decide)
        (by decide) (by decide) (by decide) (by decide)
    · rw [hgit hg "GH_TOKEN"]
      exact apply_config_vars_ne e _ (by decide) (by decide) (by decide)
        (by decide) (by decide) (by decide) (by decide)

/-- C8 witness: an inherited Windows variable `APPDATA` is preserved, and
with `GITHUB_PAT` absent `GH_TOKEN` is untouched. -/
theorem C8_witness :
    (("APPDATA" : String) ∉ overlayKeys)
    ∧ get_claude_env
        (fun q => if q = "APPDATA" then some "C:X" else none) "APPDATA"
        = some "C:X"
    ∧ get_claude_env
        (fun q => if q = "APPDATA" then some "C:X" else none) "GH_TOKEN"
        = none := by
  refine ⟨by decide, ?_, ?_⟩
  · exact (C8_env_overlay_frame
      (fun q => if q = "APPDATA" then some "C:X" else none) "APPDATA"
      (by decide)).1
  · exact ((C8_env_overlay_frame
      (fun q => if q = "APPDATA" then some "C:X" else none) "APPDATA"
      (by decide)).2.2.2.2.2.2 (Or.inl rfl)).2

/-- C10 — confirmed.  A request whose provider is `"openai"` routes to
the OpenAI execution path for every configuration and install state (no
enable-flag test, no CLI probe); with a falsy `OPENAI_API_KEY` the
response is a normal failure with output `OPENAI_API_KEY not set`, and
the output file receives exactly one record, of type `"result"` with
`is_error` true. -/
theorem C10_explicit_openai_no_key (c : Config) (st : InstallState)
    (http : HttpOutcome) (root : String) (r : AgentPromptRequest)
    (hp : r.provider = "openai")
    (hkey : pyStrTruthy c.openai_api_key = false) :
    prompt_claude_code_route c st r.provider = .openaiExec
    ∧ (execute_prompt_openai c http root r).response
        = ⟨.str "OPENAI_API_KEY not set", false, none⟩
    ∧ (execute_prompt_openai c http root r).output_file_records.length = 1
    ∧ ∀ rec ∈ (execute_prompt_openai c http root r).output_file_records,
        isResultMessage rec = true
        ∧ getField rec "is_error" = some (.bool true) := by
  have hres : prompt_openai c http
      = ⟨false, .str "OPENAI_API_KEY not set", none⟩ := by
    unfold prompt_openai
    rw [hkey]
    rfl
  refine ⟨?_, ?_, ?_, ?_⟩
  · rw [hp]
    simp [prompt_claude_code_route]
  · simp [execute_prompt_openai, hres]
  · simp [execute_prompt_openai]
  · intro rec hrec
    simp only [execute_prompt_openai, hres, List.mem_singleton] at hrec
    subst hrec
    exact ⟨rfl, rfl⟩

/-- C10 witness: an `"openai"` request with no key in the environment,
CLI not installed, against an unreachable network. -/
theorem C10_witness :
    prompt_claude_code_route (Config.mk none none none none none)
        .notFound "openai" = .openaiExec
    ∧ (execute_prompt_openai (Config.mk none none none none none)
        (.urlError "down") "R"
        (AgentPromptRequest.mk "p" "i" "a" "sonnet" "openai" false
          "o.jsonl")).response
        = ⟨.str "OPENAI_API_KEY not set", false, none⟩ := by
  have h := C10_explicit_openai_no_key (Config.mk none none none none none)
    .notFound (.urlError "down") "R"
    (AgentPromptRequest.mk "p" "i" "a" "sonnet" "openai" false "o.jsonl")
    rfl rfl
  exact ⟨h.1, h.2.1⟩

end Adws
